import Mathlib

/-!
Verification of the WASAPI shared-mode streaming backend
(`src/native/backends/wasapi/`): format bridging, session open, the
write/read loops, flush/drain/stop/close, port enumeration, and the
two-event interrupt mechanism.  Each definition is a shallow embedding of
the corresponding C++ function; platform calls (COM/WASAPI) are modelled
by explicit environment records supplying each call's result, and JNI
exceptions by an `Option ExnKind` "pending exception" value.
-/

namespace ThekoSound

/-- Exception classes thrown across the JNI boundary
(`ExceptionClassesCache` members used by the backend). -/
inductive ExnKind
  | audioBackend
  | deviceInvalidated
  | deviceInactive
  | unsupportedAudioEncoding
  | unsupportedAudioFormat
  | unsupportedOperation
  | outOfMemory
  deriving DecidableEq

/-- The `org.theko.sound.AudioFormatEncoding` constants the bridge uses. -/
inductive Encoding
  | pcmUnsigned
  | pcmSigned
  | pcmFloat
  deriving DecidableEq

/-- The engine-side `org.theko.sound.AudioFormat` value as built by the
bridge constructor call `NewObject(clazz, ctor, sampleRate, bits, channels,
encoding, bigEndian)`. -/
structure AudioFormat where
  sampleRate : Nat
  bits : Nat
  channels : Nat
  encoding : Encoding
  bigEndian : Bool
  deriving DecidableEq

def WAVE_FORMAT_PCM : Nat := 1
def WAVE_FORMAT_IEEE_FLOAT : Nat := 3
def WAVE_FORMAT_EXTENSIBLE : Nat := 65534

/-- Platform wave format (`WAVEFORMATEX`).  For `WAVEFORMATEXTENSIBLE`
formats the `SubFormat` GUID is discriminated in the code only against
`KSDATAFORMAT_SUBTYPE_PCM` (`Data1 = 1`) and
`KSDATAFORMAT_SUBTYPE_IEEE_FLOAT` (`Data1 = 3`); we keep that `Data1`
word. -/
structure WaveFormatEx where
  wFormatTag : Nat
  subFormatData1 : Nat
  nChannels : Nat
  nSamplesPerSec : Nat
  wBitsPerSample : Nat
  nBlockAlign : Nat
  nAvgBytesPerSec : Nat
  deriving DecidableEq

/-- The tag-resolution prologue of `WAVEFORMATEX_to_AudioFormat`
(wasapi_bridge.hpp lines 61..74): an extensible tag is replaced by the tag
its subformat stands for, any other subformat raising
`unsupportedAudioEncodingException`; a plain tag passes through. -/
def resolveFormatTag (w : WaveFormatEx) : Except ExnKind Nat :=
  if w.wFormatTag = WAVE_FORMAT_EXTENSIBLE then
    if w.subFormatData1 = 1 then Except.ok WAVE_FORMAT_PCM
    else if w.subFormatData1 = 3 then Except.ok WAVE_FORMAT_IEEE_FLOAT
    else Except.error ExnKind.unsupportedAudioEncoding
  else Except.ok w.wFormatTag

/-- `WAVEFORMATEX_to_AudioFormat` (wasapi_bridge.hpp lines 49..113):
resolves an extensible tag through its subformat, accepts only PCM and
IEEE float (any other tag raises `unsupportedAudioFormatException`), maps
8-bit PCM to unsigned and every other PCM depth to signed, and always
constructs the result with `bigEndian = false`. -/
def WAVEFORMATEX_to_AudioFormat (w : WaveFormatEx) : Except ExnKind AudioFormat :=
  match resolveFormatTag w with
  | Except.error e => Except.error e
  | Except.ok tag =>
    if tag = WAVE_FORMAT_IEEE_FLOAT then
      Except.ok ⟨w.nSamplesPerSec, w.wBitsPerSample, w.nChannels, Encoding.pcmFloat, false⟩
    else if tag = WAVE_FORMAT_PCM then
      if w.wBitsPerSample = 8 then
        Except.ok ⟨w.nSamplesPerSec, w.wBitsPerSample, w.nChannels, Encoding.pcmUnsigned, false⟩
      else
        Except.ok ⟨w.nSamplesPerSec, w.wBitsPerSample, w.nChannels, Encoding.pcmSigned, false⟩
    else Except.error ExnKind.unsupportedAudioFormat

/-- `AudioFormat_to_WAVEFORMATEX` (wasapi_bridge.hpp): reads sampleRate,
bits, channels and the encoding object from the AudioFormat; only an
encoding that is PCM float, PCM unsigned or PCM signed is accepted.  The
`bigEndian` field of the request is never consulted.  `nBlockAlign` is
`(channels * bits) / 8` and `nAvgBytesPerSec` is `sampleRate * nBlockAlign`. -/
def AudioFormat_to_WAVEFORMATEX (f : AudioFormat) : Except ExnKind WaveFormatEx :=
  if ¬(f.encoding = Encoding.pcmFloat)
      ∧ ¬(f.encoding = Encoding.pcmUnsigned ∨ f.encoding = Encoding.pcmSigned) then
    Except.error ExnKind.unsupportedAudioEncoding
  else
    Except.ok
      { wFormatTag :=
          if f.encoding = Encoding.pcmFloat then WAVE_FORMAT_IEEE_FLOAT else WAVE_FORMAT_PCM
        subFormatData1 := 0
        nChannels := f.channels
        nSamplesPerSec := f.sampleRate
        wBitsPerSample := f.bits
        nBlockAlign := (f.channels * f.bits) / 8
        nAvgBytesPerSec := f.sampleRate * ((f.channels * f.bits) / 8) }

/-- Result of a platform call, keeping only the distinctions the code
makes: success, the distinguished `AUDCLNT_E_DEVICE_INVALIDATED` failure,
or any other `FAILED(hr)` status. -/
inductive HRes
  | ok
  | invalidated
  | otherFailure
  deriving DecidableEq

/-- `FAILED(hr)` for the three modelled outcome classes. -/
def HRes.failed : HRes → Bool
  | HRes.ok => false
  | HRes.invalidated => true
  | HRes.otherFailure => true

def U32MOD : Nat := 4294967296

/-- UINT32 value of a natural number. -/
def u32 (n : Nat) : Nat := n % U32MOD

/-- UINT32 subtraction `a - b` with wraparound, as the C code computes
`bufferFrameCount - padding`. -/
def u32sub (a b : Nat) : Nat := (u32 a + (U32MOD - u32 b)) % U32MOD

/-- Reinterpretation of a UINT32 quantity as a `jint` (the C return casts). -/
def jintOfU32 (n : Nat) : Int :=
  let m := u32 n
  if m < 2147483648 then (m : Int) else (m : Int) - (U32MOD : Int)

/-- Reinterpretation of a UINT64 quantity as a `jlong`. -/
def jlongOfU64 (n : Nat) : Int :=
  let m := n % 18446744073709551616
  if m < 9223372036854775808 then (m : Int) else (m : Int) - (18446744073709551616 : Int)

/-- State of one Win32 event object. -/
structure EventState where
  manualReset : Bool
  signaled : Bool
  deriving DecidableEq

/-- `CreateEvent(NULL, TRUE, FALSE, NULL)`: a manual-reset event that
starts non-signaled — how both session events are created in `nOpen`
(wasapi_shared_output.cpp lines 331 and 339, wasapi_shared_input.cpp
lines 330 and 338). -/
def createManualResetEvent : EventState := ⟨true, false⟩

/-- `SetEvent`. -/
def setEvent (e : EventState) : EventState := { e with signaled := true }

/-- The session's two-signal pair: slot 0 is buffer-ready, slot 1 is
stop-requested. -/
structure EventPair where
  bufferReady : EventState
  stopRequest : EventState
  deriving DecidableEq

/-- Result of `WaitForMultipleObjects(2, handles, FALSE, timeout)`:
`WAIT_OBJECT_0`, `WAIT_OBJECT_0 + 1`, or anything else (timeout on a
bounded wait, failure, or — for an INFINITE wait — blocking until some
signal arrives). -/
inductive WaitRes
  | object0
  | object1
  | noSignal
  deriving DecidableEq

/-- `WaitForMultipleObjects(2, {bufferReady, stopRequest}, FALSE, t)`
semantics: the lowest-index signaled object is returned, and consumed only
when that event is auto-reset; with nothing signaled the wait times out or
blocks. -/
def waitForMultipleObjects2 (p : EventPair) : WaitRes × EventPair :=
  if p.bufferReady.signaled then
    (WaitRes.object0,
      { p with bufferReady :=
          if p.bufferReady.manualReset then p.bufferReady
          else { p.bufferReady with signaled := false } })
  else if p.stopRequest.signaled then
    (WaitRes.object1,
      { p with stopRequest :=
          if p.stopRequest.manualReset then p.stopRequest
          else { p.stopRequest with signaled := false } })
  else (WaitRes.noSignal, p)

/-- The only manipulations the backend performs on the session's event
pair while the session is open: a two-signal wait (`nWrite`, `nRead`,
`nDrain`), `SetEvent` on the stop-request slot (`nStop`,
`DeviceChangeNotifier::interruptPlayback`,
`InputDeviceChangeNotifier::interruptCapture`), and the platform's event
callback signaling the buffer-ready slot.  No code path calls
`ResetEvent`; `CloseHandle` happens only in `nClose`. -/
inductive EventAction
  | wait
  | setStop
  | setReady
  deriving DecidableEq

/-- Effect of each modelled operation on the event pair. -/
def applyEventAction : EventAction → EventPair → EventPair
  | EventAction.wait, p => (waitForMultipleObjects2 p).2
  | EventAction.setStop, p => { p with stopRequest := setEvent p.stopRequest }
  | EventAction.setReady, p => { p with bufferReady := setEvent p.bufferReady }

/-- A whole history of event manipulations applied in order. -/
def applyEventActions (acts : List EventAction) (p : EventPair) : EventPair :=
  acts.foldl (fun q a => applyEventAction a q) p

/-- Result of `IAudioClient::IsFormatSupported(AUDCLNT_SHAREMODE_SHARED,
format, &closestFormat)` as the open code discriminates it: a `FAILED`
hr, `S_OK`, `S_FALSE` with a non-null closest match, or any other success
status (including `S_FALSE` with a null closest pointer). -/
inductive FormatSupport
  | callFailed
  | supported
  | closest (c : WaveFormatEx)
  | otherNoClosest
  deriving DecidableEq

/-- Environment for one `nOpen` call: outcome of each platform call, in
program order. -/
structure OpenEnv where
  deviceOk : Bool
  activateOk : Bool
  support : FormatSupport
  initializeOk : Bool
  serviceOk : Bool
  clockOk : Bool
  event0Ok : Bool
  event1Ok : Bool
  getBufferSizeOk : Bool
  actualBufferFrames : Nat
  enumeratorOk : Bool
  registerOk : Bool
  deriving DecidableEq

/-- The per-session state `nOpen` leaves behind on success, plus the
AudioFormat returned to the caller. -/
structure OpenedSession where
  format : WaveFormatEx
  bytesPerFrame : Nat
  bufferFrameCount : Nat
  events : EventPair
  notifierRegistered : Bool
  returnedFormat : AudioFormat
  deriving DecidableEq

/-- Continuation of `nOpen` after the format was settled (`context->format
= format`): Initialize, GetService twice, the two events, GetBufferSize,
the tolerated notifier registration, and the final conversion of
`context->format` back to an AudioFormat for the caller. -/
def sharedOpenRest (checkBufSize : Bool) (env : OpenEnv) (fmt : WaveFormatEx) :
    Except ExnKind OpenedSession :=
  if ¬env.initializeOk then Except.error ExnKind.audioBackend
  else if ¬env.serviceOk then Except.error ExnKind.audioBackend
  else if ¬env.clockOk then Except.error ExnKind.audioBackend
  else if ¬env.event0Ok then Except.error ExnKind.audioBackend
  else if ¬env.event1Ok then Except.error ExnKind.audioBackend
  else if checkBufSize ∧ ¬env.getBufferSizeOk then Except.error ExnKind.audioBackend
  else
    match WAVEFORMATEX_to_AudioFormat fmt with
    | Except.error _ => Except.error ExnKind.audioBackend
    | Except.ok af =>
      Except.ok
        { format := fmt
          bytesPerFrame := fmt.nBlockAlign
          bufferFrameCount := env.actualBufferFrames
          events := ⟨createManualResetEvent, createManualResetEvent⟩
          notifierRegistered := env.enumeratorOk && env.registerOk
          returnedFormat := af }

/-- Shared-mode `nOpen` for output (wasapi_shared_output.cpp) and input
(wasapi_shared_input.cpp); the two bodies coincide in everything modelled
here except that the input variant checks the `GetBufferSize` result
(`checkBufSize = true`) while the output variant ignores it.  Every
pre-return failure path runs `cleanupAndThrowError`, whose final
`ThrowNew` raises `audioBackendException`; enumerator or notifier
registration failure is only logged and tolerated.  On `S_FALSE` with a
closest match the request is freed and the closest match adopted. -/
def sharedOpen (checkBufSize : Bool) (env : OpenEnv) (request : AudioFormat) :
    Except ExnKind OpenedSession :=
  if ¬env.deviceOk then Except.error ExnKind.audioBackend
  else
    match AudioFormat_to_WAVEFORMATEX request with
    | Except.error _ => Except.error ExnKind.audioBackend
    | Except.ok requested =>
      if ¬env.activateOk then Except.error ExnKind.audioBackend
      else
        match env.support with
        | FormatSupport.callFailed => Except.error ExnKind.audioBackend
        | FormatSupport.otherNoClosest => Except.error ExnKind.audioBackend
        | FormatSupport.supported => sharedOpenRest checkBufSize env requested
        | FormatSupport.closest c => sharedOpenRest checkBufSize env c

/-- The per-context fields `nWrite` reads. -/
structure WriteCtx where
  bufferFrameCount : Nat
  bytesPerFrame : Nat
  deriving DecidableEq

/-- Environment for one iteration of the `nWrite` loop: the outcomes of
`IMMDevice::GetState`, `IAudioClient::GetCurrentPadding`, the two-signal
wait (taken only when no frames are available), `GetBuffer` and
`ReleaseBuffer`. -/
structure WriteStep where
  stateHr : HRes
  deviceActive : Bool
  paddingHr : HRes
  padding : Nat
  waitRes : WaitRes
  getBufferHr : HRes
  releaseHr : HRes
  deriving DecidableEq

/-- What an `nWrite` call produces: the `jint` return value, the pending
JNI exception if a `ThrowNew` ran, the final value of the loop counter
`framesWritten` (bookkeeping), and whether the call returned through the
final `return framesWritten * bytesPerFrame` statement (`viaLoopExit`)
rather than through an early error return. -/
structure WriteOutcome where
  ret : Int
  exn : Option ExnKind
  framesWritten : Nat
  viaLoopExit : Bool
  deriving DecidableEq

/-- The `while (framesWritten < totalFrames)` loop of `nWrite`
(wasapi_shared_output.cpp lines 599..676), one `WriteStep` per iteration;
`none` means the supplied trace ended while the loop was still running.
The `GetState` failure paths return `-1` with no exception (for the
invalidated status as well); an inactive device raises
`deviceInactiveException`; `GetCurrentPadding` failure raises
`deviceInvalidatedException` on the invalidated status and
`audioBackendException` otherwise; a stop-signaled wait breaks out to the
normal return; a wait that yields neither event returns `-1`; `GetBuffer`
and `ReleaseBuffer` failures return `-1` with no exception.  The locals of
the C body are inlined: `available = bufferFrameCount - padding` (UINT32),
`framesToWrite = min(available, totalFrames - framesWritten)` further
clipped by `maxFrames = (length - offset) / bytesPerFrame` before the copy
and the counter update. -/
def writeLoop (ctx : WriteCtx) (offset length totalFrames : Nat) :
    List WriteStep → Nat → Option WriteOutcome
  | [], fw =>
    if totalFrames ≤ fw then
      some ⟨jintOfU32 (fw * ctx.bytesPerFrame), none, fw, true⟩
    else none
  | s :: rest, fw =>
    if totalFrames ≤ fw then
      some ⟨jintOfU32 (fw * ctx.bytesPerFrame), none, fw, true⟩
    else if s.stateHr.failed then some ⟨-1, none, fw, false⟩
    else if ¬s.deviceActive then some ⟨-1, some ExnKind.deviceInactive, fw, false⟩
    else if s.paddingHr = HRes.invalidated then
      some ⟨-1, some ExnKind.deviceInvalidated, fw, false⟩
    else if s.paddingHr.failed then some ⟨-1, some ExnKind.audioBackend, fw, false⟩
    else if u32sub ctx.bufferFrameCount s.padding = 0 then
      match s.waitRes with
      | WaitRes.object1 =>
        some ⟨jintOfU32 (fw * ctx.bytesPerFrame), none, fw, true⟩
      | WaitRes.object0 => writeLoop ctx offset length totalFrames rest fw
      | WaitRes.noSignal => some ⟨-1, none, fw, false⟩
    else if s.getBufferHr.failed then some ⟨-1, none, fw, false⟩
    else if s.releaseHr.failed then some ⟨-1, none, fw, false⟩
    else
      writeLoop ctx offset length totalFrames rest
        (fw +
          min (min (u32sub ctx.bufferFrameCount s.padding) (totalFrames - fw))
            ((length - offset) / ctx.bytesPerFrame))

/-- `nWrite` (wasapi_shared_output.cpp lines 577..680): a zero context
pointer or a failed `GetByteArrayElements` returns `-1` without raising;
otherwise `totalFrames = length / bytesPerFrame` and the loop runs from
`framesWritten = 0`. -/
def nWrite (ctxOpt : Option WriteCtx) (arrayOk : Bool) (offset length : Nat)
    (steps : List WriteStep) : Option WriteOutcome :=
  match ctxOpt with
  | none => some ⟨-1, none, 0, false⟩
  | some ctx =>
    if ¬arrayOk then some ⟨-1, none, 0, false⟩
    else writeLoop ctx offset length (length / ctx.bytesPerFrame) steps 0

/-- The per-context fields `nRead` reads. -/
structure ReadCtx where
  bytesPerFrame : Nat
  deriving DecidableEq

/-- Outcome of `IAudioCaptureClient::GetBuffer` in the read loop:
`AUDCLNT_S_BUFFER_EMPTY`, a failure (invalidated or other), or a packet of
`packetLength` frames whose flags may carry `AUDCLNT_BUFFERFLAGS_SILENT`. -/
inductive CaptureBuffer
  | bufferEmpty
  | failedInvalidated
  | failedOther
  | okPacket (packetLength : Nat) (silent : Bool)
  deriving DecidableEq

/-- Environment for one iteration of the `nRead` loop. -/
structure ReadStep where
  stateHr : HRes
  deviceActive : Bool
  gb : CaptureBuffer
  waitRes : WaitRes
  releaseHr : HRes
  deriving DecidableEq

/-- What an `nRead` call produces (mirror of `WriteOutcome`); here the
loop counter is `totalBytesRead`. -/
structure ReadOutcome where
  ret : Int
  exn : Option ExnKind
  totalBytesRead : Nat
  viaLoopExit : Bool
  deriving DecidableEq

/-- The `while (remainingBytes > 0)` loop of `nRead`
(wasapi_shared_input.cpp lines 591..683).  A failed or non-active
`GetState` raises `deviceInactiveException` (one combined condition in the
code, so the invalidated status also lands here); an empty capture buffer
waits 40 ms on the two signals, breaking only on the stop signal and
retrying otherwise; a failed `GetBuffer` raises
`deviceInvalidatedException` on the invalidated status and returns `-1`
silently otherwise; a packet is clipped to the remaining byte count,
copied (or zero-filled when silent), always released, and a release
failure breaks out to the normal return.  The locals of the C body are
inlined: `bytesToCopy = min(remainingBytes, packetLength * bytesPerFrame)`
is subtracted from the remaining count and added to `totalBytesRead`
before `ReleaseBuffer` decides between break and the next iteration. -/
def readLoop (ctx : ReadCtx) :
    List ReadStep → Nat → Nat → Nat → Option ReadOutcome
  | [], remainingBytes, _, totalBytesRead =>
    if remainingBytes = 0 then
      some ⟨jintOfU32 totalBytesRead, none, totalBytesRead, true⟩
    else none
  | s :: rest, remainingBytes, _, totalBytesRead =>
    if remainingBytes = 0 then
      some ⟨jintOfU32 totalBytesRead, none, totalBytesRead, true⟩
    else
        if s.stateHr.failed ∨ ¬s.deviceActive then
          some ⟨-1, some ExnKind.deviceInactive, totalBytesRead, false⟩
        else
          match s.gb with
          | CaptureBuffer.bufferEmpty =>
            match s.waitRes with
            | WaitRes.object1 =>
              some ⟨jintOfU32 totalBytesRead, none, totalBytesRead, true⟩
            | _ => readLoop ctx rest remainingBytes 0 totalBytesRead
          | CaptureBuffer.failedInvalidated =>
            some ⟨-1, some ExnKind.deviceInvalidated, totalBytesRead, false⟩
          | CaptureBuffer.failedOther => some ⟨-1, none, totalBytesRead, false⟩
          | CaptureBuffer.okPacket packetLength _ =>
            if s.releaseHr.failed then
              some ⟨jintOfU32 (totalBytesRead + min remainingBytes (packetLength * ctx.bytesPerFrame)),
                none, totalBytesRead + min remainingBytes (packetLength * ctx.bytesPerFrame), true⟩
            else
              readLoop ctx rest
                (remainingBytes - min remainingBytes (packetLength * ctx.bytesPerFrame)) 0
                (totalBytesRead + min remainingBytes (packetLength * ctx.bytesPerFrame))

/-- `nRead` (wasapi_shared_input.cpp lines 559..687): a zero context
pointer or a failed `GetByteArrayElements` returns `-1` without raising;
otherwise the loop starts with `remainingBytes = length`,
`destOffset = offset` and `totalBytesRead = 0` (the destination offset
does not influence control flow and is dropped here). -/
def nRead (ctxOpt : Option ReadCtx) (arrayOk : Bool) (length : Nat)
    (steps : List ReadStep) : Option ReadOutcome :=
  match ctxOpt with
  | none => some ⟨-1, none, 0, false⟩
  | some ctx =>
    if ¬arrayOk then some ⟨-1, none, 0, false⟩
    else readLoop ctx steps length 0 0

/-- `nFlush` on the shared output (wasapi_shared_output.cpp lines
521..525): unconditionally `ThrowNew(unsupportedOperationException, "Not
supported on this platform.")`, whether or not the session is open. -/
def nFlushOutput (_ : Option WriteCtx) : Option ExnKind :=
  some ExnKind.unsupportedOperation

/-- Environment for `nFlush` on the shared input: whether
`IAudioCaptureClient::GetBuffer` succeeded with a non-null data pointer,
the packet length it reported, and the `ReleaseBuffer` outcome. -/
structure InputFlushEnv where
  gbOk : Bool
  packetLength : Nat
  releaseHr : HRes
  deriving DecidableEq

/-- What an input `nFlush` call did: the pending exception (always none),
whether a buffer was acquired, and the frame count passed to
`ReleaseBuffer` when it ran. -/
structure FlushOutcome where
  exn : Option ExnKind
  acquired : Bool
  released : Option Nat
  deriving DecidableEq

/-- `nFlush` on the shared input (wasapi_shared_input.cpp lines 513..551):
a zero context returns silently; otherwise one `GetBuffer`, and on success
with data a `ReleaseBuffer(packetLength)` whose failure is only logged.
No path raises. -/
def nFlushInput (ctxOpt : Option ReadCtx) (env : InputFlushEnv) : FlushOutcome :=
  match ctxOpt with
  | none => ⟨none, false, none⟩
  | some _ =>
    if env.gbOk then ⟨none, true, some env.packetLength⟩
    else ⟨none, false, none⟩

/-- Environment for `nStop` on the shared output: the `IAudioClient::Stop`
and `IAudioRenderClient::GetBuffer(bufferFrameCount, ...)` outcomes. -/
structure StopEnv where
  stopHr : HRes
  getBufferHr : HRes
  deriving DecidableEq

/-- What an `nStop` call did. -/
structure StopEffect where
  stopSignalSet : Bool
  deviceStopCalled : Bool
  flushedSilent : Bool
  pendingFramesCleared : Bool
  exn : Option ExnKind
  deriving DecidableEq

/-- `nStop` on the shared output (wasapi_shared_output.cpp lines 486..519):
with an open context it sets the stop-request event, calls `Stop`, then
acquires the full `bufferFrameCount` region and on success releases it
with `AUDCLNT_BUFFERFLAGS_SILENT`, and clears `pendingFrames`; failures
are only logged.  With a zero context it does nothing.  No path raises. -/
def nStopOutput (isOpen : Bool) (env : StopEnv) : StopEffect :=
  if isOpen then ⟨true, true, env.getBufferHr = HRes.ok, true, none⟩
  else ⟨false, false, false, false, none⟩

/-- `nStart` on either shared session (wasapi_shared_output.cpp lines
465..484): with an open context it calls `IAudioClient::Start`, logging a
failure; with a zero context it does nothing.  The Boolean result records
whether the device was started; no path raises. -/
def nStart (isOpen : Bool) (startHr : HRes) : Bool × Option ExnKind :=
  if isOpen then (¬startHr.failed, none) else (false, none)

/-- Environment for one iteration of the output `nDrain` do-while loop. -/
structure DrainStep where
  stateHr : HRes
  deviceActive : Bool
  paddingHr : HRes
  padding : Nat
  waitRes : WaitRes
  deriving DecidableEq

/-- The `do { ... } while (true)` loop of output `nDrain`
(wasapi_shared_output.cpp lines 541..573): a failed or non-active device
state raises `deviceInvalidatedException`; a failed padding query raises
`deviceInvalidatedException` on the invalidated status and otherwise
breaks with only a log; zero padding breaks; a 100 ms two-signal wait
breaks on the stop signal and retries otherwise.  `none` means the trace
ended with the loop still running. -/
def drainLoop : List DrainStep → Option (Option ExnKind)
  | [] => none
  | s :: rest =>
    if s.stateHr.failed ∨ ¬s.deviceActive then some (some ExnKind.deviceInvalidated)
    else if s.paddingHr = HRes.invalidated then some (some ExnKind.deviceInvalidated)
    else if s.paddingHr.failed then some none
    else if s.padding = 0 then some none
    else
      match s.waitRes with
      | WaitRes.object1 => some none
      | _ => drainLoop rest

/-- `nDrain` on the shared output (wasapi_shared_output.cpp lines
527..575): a zero context logs an error and returns without raising;
otherwise the drain loop runs and `pendingFrames` is cleared. -/
def nDrainOutput (isOpen : Bool) (steps : List DrainStep) : Option (Option ExnKind) :=
  if isOpen then drainLoop steps else some none

/-- `nDrain` on the shared input (wasapi_shared_input.cpp lines 553..557):
unconditionally `ThrowNew(unsupportedOperationException, "Not supported
for input.")`, whether or not the session is open. -/
def nDrainInput (_ : Option ReadCtx) : Option ExnKind :=
  some ExnKind.unsupportedOperation

/-- A `jint`-returning query call: return value plus pending exception. -/
structure QueryOutcome where
  ret : Int
  exn : Option ExnKind
  deriving DecidableEq

/-- `nAvailable` on the shared output (wasapi_shared_output.cpp lines
682..713): a zero context returns `-1`; a failed padding query raises
`audioBackendException` and returns `-1`; otherwise
`bufferFrameCount - padding` in UINT32 arithmetic, returned as `-1` when
it exceeds `INT_MAX`. -/
def nAvailableOutput (ctxOpt : Option WriteCtx) (paddingHr : HRes) (padding : Nat) :
    QueryOutcome :=
  match ctxOpt with
  | none => ⟨-1, none⟩
  | some ctx =>
    if paddingHr.failed then ⟨-1, some ExnKind.audioBackend⟩
    else
      let available := u32sub ctx.bufferFrameCount padding
      if 2147483647 < available then ⟨-1, none⟩ else ⟨(available : Int), none⟩

/-- `nAvailable` on the shared input (wasapi_shared_input.cpp lines
690..731): a zero context returns `-1`; an empty capture buffer returns
`0`; a failed `GetBuffer` returns `-1` without raising; otherwise the
packet is released and `packetLength * bytesPerFrame` returned. -/
def nAvailableInput (ctxOpt : Option ReadCtx) (gb : CaptureBuffer) : QueryOutcome :=
  match ctxOpt with
  | none => ⟨-1, none⟩
  | some ctx =>
    match gb with
    | CaptureBuffer.bufferEmpty => ⟨0, none⟩
    | CaptureBuffer.failedInvalidated => ⟨-1, none⟩
    | CaptureBuffer.failedOther => ⟨-1, none⟩
    | CaptureBuffer.okPacket packetLength _ =>
      ⟨jintOfU32 (packetLength * ctx.bytesPerFrame), none⟩

/-- `nGetBufferSize` on either shared session: a zero context returns
`-1`; otherwise `(jint)bufferFrameCount`. -/
def nGetBufferSize (ctxOpt : Option WriteCtx) : QueryOutcome :=
  match ctxOpt with
  | none => ⟨-1, none⟩
  | some ctx => ⟨jintOfU32 ctx.bufferFrameCount, none⟩

/-- `nGetFramePosition` on either shared session: a zero context returns
`-1`; a failed `IAudioClock::GetPosition` returns `-1` without raising;
otherwise the UINT64 position as a `jlong`. -/
def nGetFramePosition (ctxOpt : Option WriteCtx) (hr : HRes) (position : Nat) :
    QueryOutcome :=
  match ctxOpt with
  | none => ⟨-1, none⟩
  | some _ =>
    if hr.failed then ⟨-1, none⟩ else ⟨jlongOfU64 position, none⟩

/-- `nGetMicrosecondLatency` on either shared session: a zero context
returns `-1`; a failed `GetStreamLatency` raises `audioBackendException`
and returns `-1`; a positive latency (100 ns units) returns `latency /
10`; a zero latency falls back to a buffer-length computation done in
`double` arithmetic, supplied here by the environment as
`fallbackMicros`. -/
def nGetMicrosecondLatency (ctxOpt : Option WriteCtx) (hr : HRes)
    (latency : Int) (fallbackMicros : Int) : QueryOutcome :=
  match ctxOpt with
  | none => ⟨-1, none⟩
  | some _ =>
    if hr.failed then ⟨-1, some ExnKind.audioBackend⟩
    else if 0 < latency then ⟨latency / 10, none⟩
    else if latency = 0 then ⟨fallbackMicros, none⟩
    else ⟨-1, none⟩

/-- The resources a session context may still hold when `nClose` runs. -/
structure CloseCtx where
  hasClock : Bool
  hasRenderOrCapture : Bool
  hasClient : Bool
  hasDevice : Bool
  hasEnumerator : Bool
  hasNotifier : Bool
  hasEv0 : Bool
  hasEv1 : Bool
  deriving DecidableEq

/-- One release action performed by `nClose`, in the order the code runs
them. -/
inductive ReleaseStep
  | clock
  | renderOrCapture
  | client
  | device
  | unregisterNotifier
  | enumerator
  | notifier
  | ev0
  | ev1
  deriving DecidableEq

/-- The release sequence of `nClose` (wasapi_shared_output.cpp lines
400..459, wasapi_shared_input.cpp lines 404..463): clock, render/capture
client, audio client, device, then unregister the notification callback
(only when both enumerator and notifier are present), release the
enumerator, release the notifier, and close the two event handles. -/
def closeActions (c : CloseCtx) : List ReleaseStep :=
  (if c.hasClock then [ReleaseStep.clock] else []) ++
  (if c.hasRenderOrCapture then [ReleaseStep.renderOrCapture] else []) ++
  (if c.hasClient then [ReleaseStep.client] else []) ++
  (if c.hasDevice then [ReleaseStep.device] else []) ++
  (if c.hasEnumerator ∧ c.hasNotifier then [ReleaseStep.unregisterNotifier] else []) ++
  (if c.hasEnumerator then [ReleaseStep.enumerator] else []) ++
  (if c.hasNotifier then [ReleaseStep.notifier] else []) ++
  (if c.hasEv0 then [ReleaseStep.ev0] else []) ++
  (if c.hasEv1 then [ReleaseStep.ev1] else [])

/-- What one `nClose` call did: the new value of the stored context
pointer field, the release actions performed, and the pending exception. -/
structure CloseOutcome where
  field : Option CloseCtx
  released : List ReleaseStep
  exn : Option ExnKind
  deriving DecidableEq

/-- `nClose` on either shared session (wasapi_shared_output.cpp lines
384..463): a zero stored context pointer logs "already closed" and
returns, releasing nothing; otherwise every held resource is released,
the context deleted, and the pointer field set to `0`.  No path raises. -/
def nClose (field : Option CloseCtx) : CloseOutcome :=
  match field with
  | none => ⟨none, [], none⟩
  | some c => ⟨none, closeActions c, none⟩

/-- Endpoint data-flow direction. -/
inductive DataFlow
  | render
  | capture
  deriving DecidableEq

def DEVICE_STATE_ACTIVE : Nat := 1
def DEVICE_STATE_DISABLED : Nat := 2
def DEVICE_STATE_NOTPRESENT : Nat := 4
def DEVICE_STATE_UNPLUGGED : Nat := 8
def DEVICE_STATEMASK_ALL : Nat := 15

/-- A platform endpoint as the enumeration and bridging code observes it:
identity, flow, state bits, and the outcomes of the property-store,
`GetId` and mix-format queries. -/
structure PlatformDevice where
  devId : Nat
  flow : DataFlow
  state : Nat
  propStoreOk : Bool
  friendlyName : Option Nat
  manufacturer : Option Nat
  description : Option Nat
  getIdOk : Bool
  mixFormat : Option WaveFormatEx
  deriving DecidableEq

/-- The `org.theko.sound.AudioPort` the bridge constructs.  The
human-readable strings are tracked by numeric codes, `0` standing for the
"Unknown" default. -/
structure AudioPort where
  handle : Nat
  flow : DataFlow
  isActive : Bool
  mixFormat : Option AudioFormat
  name : Nat
  vendor : Nat
  version : Nat
  description : Nat
  deriving DecidableEq

/-- `getDevicesList` (wasapi_utils.hpp lines 74..82) =
`EnumAudioEndpoints(flow, mask, &collection)`: the platform returns the
endpoints of the requested flow whose state matches the mask, in platform
enumeration order. -/
def getDevicesList (devices : List PlatformDevice) (flow : DataFlow) (mask : Nat) :
    List PlatformDevice :=
  devices.filter (fun d => d.flow = flow ∧ d.state &&& mask ≠ 0)

/-- `IMMDevice_to_AudioPort` (wasapi_bridge.hpp lines 254..407): failing
to open the property store raises `audioBackendException` and returns
null; name, manufacturer and description default to "Unknown" (code `0`)
when unavailable, and version is always "Unknown" (a TODO in the code); a
failed `GetId` raises and returns null; `isActive` is `state &
DEVICE_STATE_ACTIVE`; a missing mix format raises for an active device
but is tolerated for an inactive one; a mix format whose conversion
fails leaves the port with a null mix format and that conversion's
exception pending.  The result is the constructed port (or null) together
with the pending exception. -/
def IMMDevice_to_AudioPort (d : PlatformDevice) : Option AudioPort × Option ExnKind :=
  if ¬d.propStoreOk then (none, some ExnKind.audioBackend)
  else
    let name := d.friendlyName.getD 0
    let vendor := d.manufacturer.getD 0
    let version := 0
    let description := d.description.getD 0
    if ¬d.getIdOk then (none, some ExnKind.audioBackend)
    else
      let isActive := d.state &&& DEVICE_STATE_ACTIVE ≠ 0
      match d.mixFormat with
      | none =>
        if isActive then (none, some ExnKind.audioBackend)
        else
          (some ⟨d.devId, d.flow, false, none, name, vendor, version, description⟩, none)
      | some mf =>
        match WAVEFORMATEX_to_AudioFormat mf with
        | Except.error e =>
          (some ⟨d.devId, d.flow, decide isActive, none, name, vendor, version, description⟩,
            some e)
        | Except.ok af =>
          (some ⟨d.devId, d.flow, decide isActive, some af, name, vendor, version, description⟩,
            none)

/-- One enumeration loop of `nGetAllPorts`: convert each device in order,
storing each (possibly null) port into the array; a conversion's
`ThrowNew` replaces whatever exception was pending, and a successful
conversion leaves the pending exception alone (the code never calls
`ExceptionClear`). -/
def convertLoop : List PlatformDevice → Option ExnKind →
    List (Option AudioPort) × Option ExnKind
  | [], pending => ([], pending)
  | d :: rest, pending =>
    let pe := IMMDevice_to_AudioPort d
    let next := convertLoop rest (match pe.2 with
      | some e => some e
      | none => pending)
    (pe.1 :: next.1, next.2)

/-- Result of `nGetAllPorts`: the returned array (null when enumeration
could not even start) and the pending exception when the native method
returns. -/
structure PortsOutcome where
  ports : Option (List (Option AudioPort))
  exn : Option ExnKind
  deriving DecidableEq

/-- `nGetAllPorts` (wasapi_shared_backend.cpp lines 101..155): with a
usable enumerator it enumerates render endpoints then capture endpoints,
both with `DEVICE_STATEMASK_ALL`, converts each to a port in order
(render loop first, then capture loop), and returns the combined array;
a null enumerator or collection returns null. -/
def nGetAllPorts (enumeratorOk : Bool) (devices : List PlatformDevice) : PortsOutcome :=
  if ¬enumeratorOk then ⟨none, none⟩
  else
    let renders := getDevicesList devices DataFlow.render DEVICE_STATEMASK_ALL
    let captures := getDevicesList devices DataFlow.capture DEVICE_STATEMASK_ALL
    let rr := convertLoop renders none
    let cc := convertLoop captures rr.2
    ⟨some (rr.1 ++ cc.1), cc.2⟩

/-- `nGetCurrentAudioPort` on either shared session
(wasapi_shared_output.cpp lines 793..825): a zero context returns null
without raising; a null stored device raises `audioBackendException`; the
port is re-derived from the live device via `IMMDevice_to_AudioPort`, and
a null conversion result raises `audioBackendException`. -/
def nGetCurrentAudioPort (ctxOpt : Option (Option PlatformDevice)) :
    Option AudioPort × Option ExnKind :=
  match ctxOpt with
  | none => (none, none)
  | some none => (none, some ExnKind.audioBackend)
  | some (some d) =>
    match IMMDevice_to_AudioPort d with
    | (none, _) => (none, some ExnKind.audioBackend)
    | (some p, e) => (some p, e)

/-! Theorems. -/

/-- Any session successfully produced by `sharedOpenRest` keeps the format
it was handed and returns that format's AudioFormat conversion. -/
theorem sharedOpenRest_format (cb : Bool) (env : OpenEnv) (fmt : WaveFormatEx)
    (s : OpenedSession) (h : sharedOpenRest cb env fmt = Except.ok s) :
    s.format = fmt ∧ WAVEFORMATEX_to_AudioFormat fmt = Except.ok s.returnedFormat := by
  unfold sharedOpenRest at h
  split_ifs at h
  split at h
  · exact Except.noConfusion h
  · rename_i af haf
    injection h with h2
    subst h2
    exact ⟨rfl, haf⟩

/-- Claim C1: whenever the shared-mode `IsFormatSupported` query reports
"not supported but here is a closest match", a successful `nOpen` (output
or input) adopts the closest match as the session's active format —
`context->format` is the closest match, the original request having been
freed — and the AudioFormat handed back to the caller is the conversion of
that closest match, never of the original request. -/
theorem C1_open_adopts_closest (checkBufSize : Bool) (env : OpenEnv)
    (request : AudioFormat) (c : WaveFormatEx) (s : OpenedSession)
    (hsup : env.support = FormatSupport.closest c)
    (hok : sharedOpen checkBufSize env request = Except.ok s) :
    s.format = c ∧ WAVEFORMATEX_to_AudioFormat c = Except.ok s.returnedFormat := by
  unfold sharedOpen at hok
  rw [hsup] at hok
  split at hok
  · exact Except.noConfusion hok
  · split at hok
    · exact Except.noConfusion hok
    · split at hok
      · exact Except.noConfusion hok
      · exact sharedOpenRest_format checkBufSize env c s hok

/-- Witness for C1: a 48000/16/2 signed request against a device whose
closest match is 48000/32/2 float. -/
theorem C1_open_adopts_closest_witness :
    (⟨⟨3, 0, 2, 48000, 32, 8, 384000⟩, 8, 1056, ⟨⟨true, false⟩, ⟨true, false⟩⟩, true,
        ⟨48000, 32, 2, Encoding.pcmFloat, false⟩⟩ : OpenedSession).format
      = ⟨3, 0, 2, 48000, 32, 8, 384000⟩
    ∧ WAVEFORMATEX_to_AudioFormat ⟨3, 0, 2, 48000, 32, 8, 384000⟩
      = Except.ok (⟨⟨3, 0, 2, 48000, 32, 8, 384000⟩, 8, 1056,
          ⟨⟨true, false⟩, ⟨true, false⟩⟩, true,
          ⟨48000, 32, 2, Encoding.pcmFloat, false⟩⟩ : OpenedSession).returnedFormat :=
  C1_open_adopts_closest false
    ⟨true, true, FormatSupport.closest ⟨3, 0, 2, 48000, 32, 8, 384000⟩,
      true, true, true, true, true, true, 1056, true, true⟩
    ⟨48000, 16, 2, Encoding.pcmSigned, false⟩
    ⟨3, 0, 2, 48000, 32, 8, 384000⟩
    ⟨⟨3, 0, 2, 48000, 32, 8, 384000⟩, 8, 1056, ⟨⟨true, false⟩, ⟨true, false⟩⟩, true,
      ⟨48000, 32, 2, Encoding.pcmFloat, false⟩⟩
    rfl rfl

/-- Frame-to-byte bound: strictly fewer consumed frames than
`length / bytesPerFrame` means strictly fewer produced bytes than
`length`. -/
theorem frames_mul_lt_length (fw n b : Nat) (hb : 1 ≤ b) (h : fw < n / b) :
    fw * b < n := by
  have h1 : (fw + 1) * b ≤ (n / b) * b := Nat.mul_le_mul_right b h
  have h2 : (n / b) * b ≤ n := Nat.div_mul_le_self n b
  have h3 : (fw + 1) * b ≤ n := le_trans h1 h2
  nlinarith

/-- Claim C2: when the stop-requested signal is observed by the two-signal
wait inside `nWrite` while strictly fewer than the requested
`length / bytesPerFrame` frames have been consumed, the call stops
writing there: it returns `framesWritten * bytesPerFrame` — strictly less
than the requested `length` — with no pending exception (a clean
interruption, not an error). -/
theorem C2_write_interrupted_clean (ctx : WriteCtx) (offset length fw : Nat)
    (s : WriteStep) (rest : List WriteStep)
    (hbpf : 1 ≤ ctx.bytesPerFrame)
    (hlen : length < 2147483648)
    (hfw : fw < length / ctx.bytesPerFrame)
    (h1 : s.stateHr = HRes.ok) (h2 : s.deviceActive = true)
    (h3 : s.paddingHr = HRes.ok)
    (h4 : u32sub ctx.bufferFrameCount s.padding = 0)
    (h5 : s.waitRes = WaitRes.object1) :
    writeLoop ctx offset length (length / ctx.bytesPerFrame) (s :: rest) fw
      = some ⟨((fw * ctx.bytesPerFrame : Nat) : Int), none, fw, true⟩
    ∧ ((fw * ctx.bytesPerFrame : Nat) : Int) < (length : Int) := by
  have hbytes : fw * ctx.bytesPerFrame < length :=
    frames_mul_lt_length fw length ctx.bytesPerFrame hbpf hfw
  have hsmall : fw * ctx.bytesPerFrame < 2147483648 := lt_trans hbytes hlen
  have hjint : jintOfU32 (fw * ctx.bytesPerFrame) = ((fw * ctx.bytesPerFrame : Nat) : Int) := by
    have hmod : u32 (fw * ctx.bytesPerFrame) = fw * ctx.bytesPerFrame :=
      Nat.mod_eq_of_lt (by unfold U32MOD; omega)
    unfold jintOfU32
    rw [hmod]
    rw [if_pos hsmall]
  constructor
  · unfold writeLoop
    rw [if_neg (Nat.not_le.mpr hfw)]
    simp only [h1, h2, h3, h4, h5, HRes.failed]
    simp [hjint]
  · exact_mod_cast hbytes

/-- Witness for C2: a two-byte-per-frame context interrupted after one of
four requested frames. -/
theorem C2_write_interrupted_clean_witness :
    writeLoop ⟨4, 2⟩ 0 8 (8 / (⟨4, 2⟩ : WriteCtx).bytesPerFrame)
        [⟨HRes.ok, true, HRes.ok, 4, WaitRes.object1, HRes.ok, HRes.ok⟩] 1
      = some ⟨((1 * (⟨4, 2⟩ : WriteCtx).bytesPerFrame : Nat) : Int), none, 1, true⟩
    ∧ ((1 * (⟨4, 2⟩ : WriteCtx).bytesPerFrame : Nat) : Int) < ((8 : Nat) : Int) :=
  C2_write_interrupted_clean ⟨4, 2⟩ 0 8 1
    ⟨HRes.ok, true, HRes.ok, 4, WaitRes.object1, HRes.ok, HRes.ok⟩ []
    (by decide) (by decide) (by decide) rfl rfl rfl (by decide) rfl

/-- Claim C3 counterexample: a write of `length = 8` bytes with
`bytesPerFrame = 4` completes in one iteration having written
`framesWritten = 2` frames, yet the call returns `8` — the byte count
`framesWritten * bytesPerFrame` — and `8 ≠ 2`, so the value returned is
not `framesWritten`. -/
theorem C3_counterexample_returns_bytes :
    nWrite (some ⟨4, 4⟩) true 0 8
        [⟨HRes.ok, true, HRes.ok, 0, WaitRes.object0, HRes.ok, HRes.ok⟩]
      = some ⟨8, none, 2, true⟩
    ∧ (8 : Int) ≠ ((2 : Nat) : Int) :=
  ⟨by decide, by decide⟩

/-- Claim C3 (amended): every `nWrite` call that returns through the
loop-exit path (completion or clean interruption) returns
`framesWritten * bytesPerFrame` — the number of bytes written, not the
number of frames — with no pending exception. -/
theorem C3_write_returns_byte_count (ctx : WriteCtx)
    (offset length totalFrames fw : Nat) (steps : List WriteStep)
    (r : WriteOutcome)
    (h : writeLoop ctx offset length totalFrames steps fw = some r)
    (hexit : r.viaLoopExit = true) :
    r.ret = jintOfU32 (r.framesWritten * ctx.bytesPerFrame) ∧ r.exn = none := by
  induction steps generalizing fw with
  | nil =>
    unfold writeLoop at h
    split at h
    · injection h with h2
      subst h2
      exact ⟨rfl, rfl⟩
    · exact Option.noConfusion h
  | cons s rest ih =>
    unfold writeLoop at h
    split_ifs at h
    all_goals
      first
      | exact ih _ h
      | (injection h with h2
         subst h2
         first
         | exact ⟨rfl, rfl⟩
         | simp at hexit)
      | (split at h
         <;> first
         | exact ih _ h
         | (injection h with h2
            subst h2
            first
            | exact ⟨rfl, rfl⟩
            | simp at hexit))

/-- Witness for the amended C3: the completed write of the counterexample
run, whose return value 8 is `2 * 4` bytes. -/
theorem C3_write_returns_byte_count_witness :
    (⟨8, none, 2, true⟩ : WriteOutcome).ret
      = jintOfU32 ((⟨8, none, 2, true⟩ : WriteOutcome).framesWritten
          * (⟨4, 4⟩ : WriteCtx).bytesPerFrame)
    ∧ (⟨8, none, 2, true⟩ : WriteOutcome).exn = none :=
  C3_write_returns_byte_count ⟨4, 4⟩ 0 8 2 0
    [⟨HRes.ok, true, HRes.ok, 0, WaitRes.object0, HRes.ok, HRes.ok⟩]
    ⟨8, none, 2, true⟩ (by decide) rfl

/-- Claim C4 counterexample: `nFlush` on an open shared-mode output
session raises `unsupportedOperationException` instead of succeeding —
the discard-the-queued-buffer behavior does not live in output `flush`. -/
theorem C4_counterexample_output_flush_throws :
    nFlushOutput (some ⟨4, 4⟩) = some ExnKind.unsupportedOperation
    ∧ some ExnKind.unsupportedOperation ≠ (none : Option ExnKind) :=
  ⟨rfl, by decide⟩

/-- Claim C4 (amended): on the shared output session `nFlush` always
raises `unsupportedOperation` (open or not); the
acquire-full-region-and-release-with-silence discard is performed by
output `nStop` (when its `GetBuffer` succeeds); and on the shared input
session `nFlush` on an open session never raises — it acquires the
current packet and, when the acquisition succeeds, releases exactly the
acquired packet length, without waiting. -/
theorem C4_flush_behavior :
    (∀ c : Option WriteCtx, nFlushOutput c = some ExnKind.unsupportedOperation)
    ∧ (∀ env : StopEnv, env.getBufferHr = HRes.ok →
        (nStopOutput true env).flushedSilent = true
        ∧ (nStopOutput true env).exn = none)
    ∧ (∀ (ctx : ReadCtx) (env : InputFlushEnv),
        (nFlushInput (some ctx) env).exn = none
        ∧ ((nFlushInput (some ctx) env).acquired = true →
            (nFlushInput (some ctx) env).released = some env.packetLength)) := by
  refine ⟨fun c => rfl, fun env hgb => ?_, fun ctx env => ?_⟩
  · unfold nStopOutput
    rw [if_pos rfl]
    exact ⟨by simp [hgb], rfl⟩
  · unfold nFlushInput
    split_ifs
    · exact ⟨rfl, fun _ => rfl⟩
    · exact ⟨rfl, fun hacq => absurd hacq (by simp)⟩

/-- Witness for the amended C4: output flush on an open session raises,
output stop with a successful buffer acquisition performs the silent
discard, and input flush on an open session with a 7-frame packet raises
nothing and releases those 7 frames. -/
theorem C4_flush_behavior_witness :
    nFlushOutput (some ⟨8, 2⟩) = some ExnKind.unsupportedOperation
    ∧ ((nStopOutput true ⟨HRes.ok, HRes.ok⟩).flushedSilent = true
        ∧ (nStopOutput true ⟨HRes.ok, HRes.ok⟩).exn = none)
    ∧ ((nFlushInput (some ⟨4⟩) ⟨true, 7, HRes.ok⟩).exn = none
        ∧ ((nFlushInput (some ⟨4⟩) ⟨true, 7, HRes.ok⟩).acquired = true →
            (nFlushInput (some ⟨4⟩) ⟨true, 7, HRes.ok⟩).released = some 7)) :=
  ⟨C4_flush_behavior.1 (some ⟨8, 2⟩), C4_flush_behavior.2.1 ⟨HRes.ok, HRes.ok⟩ rfl,
    C4_flush_behavior.2.2 ⟨4⟩ ⟨true, 7, HRes.ok⟩⟩

/-- Claim C5: a second `nClose` after a completed `nClose` sees the zeroed
context-pointer field, releases nothing, leaves the field zero, and raises
nothing; the first close also never raises. -/
theorem C5_close_idempotent (f : Option CloseCtx) :
    nClose (nClose f).field = ⟨none, [], none⟩ ∧ (nClose f).exn = none := by
  cases f <;> exact ⟨rfl, rfl⟩

/-- Claim C6 counterexample: when the device-state query inside `nWrite`
reports the distinguished invalidated status, the call returns the `-1`
sentinel with no pending exception — a silent sentinel, not a
`DeviceInvalidated` failure. -/
theorem C6_counterexample_state_poll_silent :
    nWrite (some ⟨4, 4⟩) true 0 8
        [⟨HRes.invalidated, true, HRes.ok, 0, WaitRes.object0, HRes.ok, HRes.ok⟩]
      = some ⟨-1, none, 0, false⟩
    ∧ (none : Option ExnKind) ≠ some ExnKind.deviceInvalidated :=
  ⟨by decide, by decide⟩

/-- Claim C6 (amended): the invalidated status is mapped to a
`DeviceInvalidated` failure only at the padding query of `nWrite` and the
buffer acquisition of `nRead`; at the device-state query, `nWrite`
returns the `-1` sentinel with no exception (invalidated or not) and
`nRead` raises `DeviceInactive` instead. -/
theorem C6_invalidated_mapping :
    (∀ (ctx : WriteCtx) (offset length totalFrames fw : Nat)
        (s : WriteStep) (rest : List WriteStep),
      fw < totalFrames → s.stateHr = HRes.ok → s.deviceActive = true →
      s.paddingHr = HRes.invalidated →
      writeLoop ctx offset length totalFrames (s :: rest) fw
        = some ⟨-1, some ExnKind.deviceInvalidated, fw, false⟩)
    ∧ (∀ (ctx : ReadCtx) (remainingBytes destOffset totalBytesRead : Nat)
        (s : ReadStep) (rest : List ReadStep),
      remainingBytes ≠ 0 → s.stateHr = HRes.ok → s.deviceActive = true →
      s.gb = CaptureBuffer.failedInvalidated →
      readLoop ctx (s :: rest) remainingBytes destOffset totalBytesRead
        = some ⟨-1, some ExnKind.deviceInvalidated, totalBytesRead, false⟩)
    ∧ (∀ (ctx : WriteCtx) (offset length totalFrames fw : Nat)
        (s : WriteStep) (rest : List WriteStep),
      fw < totalFrames → s.stateHr.failed = true →
      writeLoop ctx offset length totalFrames (s :: rest) fw
        = some ⟨-1, none, fw, false⟩)
    ∧ (∀ (ctx : ReadCtx) (remainingBytes destOffset totalBytesRead : Nat)
        (s : ReadStep) (rest : List ReadStep),
      remainingBytes ≠ 0 → s.stateHr.failed = true ∨ s.deviceActive = false →
      readLoop ctx (s :: rest) remainingBytes destOffset totalBytesRead
        = some ⟨-1, some ExnKind.deviceInactive, totalBytesRead, false⟩) := by
  refine ⟨?_, ?_, ?_, ?_⟩
  · intro ctx offset length totalFrames fw s rest hlt h1 h2 h3
    unfold writeLoop
    rw [if_neg (Nat.not_le.mpr hlt)]
    simp [h1, h2, h3, HRes.failed]
  · intro ctx remainingBytes destOffset totalBytesRead s rest hne h1 h2 h3
    unfold readLoop
    rw [if_neg hne]
    simp [h1, h2, h3, HRes.failed]
  · intro ctx offset length totalFrames fw s rest hlt h1
    unfold writeLoop
    rw [if_neg (Nat.not_le.mpr hlt)]
    simp [h1]
  · intro ctx remainingBytes destOffset totalBytesRead s rest hne h1
    unfold readLoop
    rw [if_neg hne]
    rcases h1 with h1 | h1 <;> simp [h1]

/-- Witness for the amended C6: each of the four mappings at a concrete
one-step trace. -/
theorem C6_invalidated_mapping_witness :
    writeLoop ⟨4, 4⟩ 0 8 2
        [⟨HRes.ok, true, HRes.invalidated, 0, WaitRes.object0, HRes.ok, HRes.ok⟩] 0
      = some ⟨-1, some ExnKind.deviceInvalidated, 0, false⟩
    ∧ readLoop ⟨4⟩ [⟨HRes.ok, true, CaptureBuffer.failedInvalidated, WaitRes.object0, HRes.ok⟩]
        8 0 0
      = some ⟨-1, some ExnKind.deviceInvalidated, 0, false⟩
    ∧ writeLoop ⟨4, 4⟩ 0 8 2
        [⟨HRes.invalidated, true, HRes.ok, 0, WaitRes.object0, HRes.ok, HRes.ok⟩] 0
      = some ⟨-1, none, 0, false⟩
    ∧ readLoop ⟨4⟩ [⟨HRes.invalidated, true, CaptureBuffer.bufferEmpty, WaitRes.object0, HRes.ok⟩]
        8 0 0
      = some ⟨-1, some ExnKind.deviceInactive, 0, false⟩ :=
  ⟨C6_invalidated_mapping.1 ⟨4, 4⟩ 0 8 2 0
      ⟨HRes.ok, true, HRes.invalidated, 0, WaitRes.object0, HRes.ok, HRes.ok⟩ []
      (by decide) rfl rfl rfl,
    C6_invalidated_mapping.2.1 ⟨4⟩ 8 0 0
      ⟨HRes.ok, true, CaptureBuffer.failedInvalidated, WaitRes.object0, HRes.ok⟩ []
      (by decide) rfl rfl rfl,
    C6_invalidated_mapping.2.2.1 ⟨4, 4⟩ 0 8 2 0
      ⟨HRes.invalidated, true, HRes.ok, 0, WaitRes.object0, HRes.ok, HRes.ok⟩ []
      (by decide) rfl,
    C6_invalidated_mapping.2.2.2 ⟨4⟩ 8 0 0
      ⟨HRes.invalidated, true, CaptureBuffer.bufferEmpty, WaitRes.object0, HRes.ok⟩ []
      (by decide) (Or.inl rfl)⟩

/-- The enumeration loop stores, in order, exactly the conversion result
of each device. -/
theorem convertLoop_ports (l : List PlatformDevice) (pending : Option ExnKind) :
    (convertLoop l pending).1 = l.map (fun d => (IMMDevice_to_AudioPort d).1) := by
  induction l generalizing pending with
  | nil => rfl
  | cons d rest ih =>
    unfold convertLoop
    simp [ih]

/-- The enumeration loop ends with no pending exception exactly when it
started with none and no device's conversion raised. -/
theorem convertLoop_exn (l : List PlatformDevice) (pending : Option ExnKind) :
    (convertLoop l pending).2 = none ↔
      pending = none ∧ ∀ d ∈ l, (IMMDevice_to_AudioPort d).2 = none := by
  induction l generalizing pending with
  | nil => simp [convertLoop]
  | cons d rest ih =>
    rcases hd : (IMMDevice_to_AudioPort d).2 with _ | e
    · simp only [convertLoop, hd]
      rw [ih pending]
      constructor
      · rintro ⟨hp, hrest⟩
        refine ⟨hp, fun x hx => ?_⟩
        rcases List.mem_cons.mp hx with hx | hx
        · rw [hx]
          exact hd
        · exact hrest x hx
      · rintro ⟨hp, hall⟩
        exact ⟨hp, fun x hx => hall x (List.mem_cons_of_mem d hx)⟩
    · simp only [convertLoop, hd]
      rw [ih (some e)]
      simp [hd]

/-- Claim C7 counterexample: an unplugged render endpoint (state
`DEVICE_STATE_UNPLUGGED`) is enumerated — its port appears with
`isActive = false`, so the call does not list only active endpoints — and
a second endpoint whose property store fails to open leaves a null slot
and a pending `audioBackendException`, so the mid-enumeration failure is
not skipped: it surfaces when the native method returns. -/
theorem C7_counterexample_enumeration :
    nGetAllPorts true
        [⟨1, DataFlow.render, 8, true, some 5, none, none, true, none⟩,
          ⟨2, DataFlow.render, 1, false, none, none, none, true, none⟩]
      = ⟨some [some ⟨1, DataFlow.render, false, none, 5, 0, 0, 0⟩, none],
          some ExnKind.audioBackend⟩
    ∧ (false = true → False)
    ∧ some ExnKind.audioBackend ≠ (none : Option ExnKind) :=
  ⟨by decide, by decide, by decide⟩

/-- Claim C7 (amended): `nGetAllPorts` enumerates endpoints of every
device state (`DEVICE_STATEMASK_ALL`, not only active ones), render
endpoints first and then capture endpoints, each sublist in platform
enumeration order with one (possibly null) slot per endpoint; the call
ends with no pending exception exactly when every enumerated endpoint's
conversion (property store, id, mix format) raised nothing — a failing
entry leaves a null slot and its exception pending rather than being
skipped cleanly. -/
theorem C7_enumeration_order_and_errors (devices : List PlatformDevice) :
    (nGetAllPorts true devices).ports
      = some ((getDevicesList devices DataFlow.render DEVICE_STATEMASK_ALL).map
            (fun d => (IMMDevice_to_AudioPort d).1)
          ++ (getDevicesList devices DataFlow.capture DEVICE_STATEMASK_ALL).map
            (fun d => (IMMDevice_to_AudioPort d).1))
    ∧ ((nGetAllPorts true devices).exn = none ↔
        ∀ d ∈ getDevicesList devices DataFlow.render DEVICE_STATEMASK_ALL
            ++ getDevicesList devices DataFlow.capture DEVICE_STATEMASK_ALL,
          (IMMDevice_to_AudioPort d).2 = none) := by
  constructor
  · unfold nGetAllPorts
    simp [convertLoop_ports]
  · unfold nGetAllPorts
    rw [if_neg (by simp)]
    simp only [convertLoop_exn]
    simp [List.forall_mem_append]
    constructor
    · rintro ⟨hr, hc⟩ d hd
      rcases hd with hd | hd
      · exact hr d hd
      · exact hc d hd
    · intro hall
      exact ⟨fun d hd => hall d (Or.inl hd), fun d hd => hall d (Or.inr hd)⟩

/-- Claim C8 counterexample: a big-endian request — 44100 Hz / 16-bit /
2-channel PCM signed with `bigEndian = true` — does not fail: the
engine-to-platform conversion produces a wave format (`toOption` is a
`some`, not a `none` as an error would give), because
`AudioFormat_to_WAVEFORMATEX` never reads the `bigEndian` field. -/
theorem C8_counterexample_big_endian_accepted :
    (AudioFormat_to_WAVEFORMATEX ⟨44100, 16, 2, Encoding.pcmSigned, true⟩).toOption
      = some ⟨1, 0, 2, 44100, 16, 4, 176400⟩ := by decide

/-- Claim C8 (amended): platform-to-engine conversion accepts only PCM
integer and IEEE float tags (an extensible tag with any other subformat
is an unsupported-encoding error, any other plain tag an
unsupported-format error); a PCM format maps to unsigned at 8 bits per
sample and to signed at every other depth, a float tag maps to PCM float;
no produced AudioFormat is ever big-endian; but a big-endian request does
not fail — the engine-to-platform conversion ignores the `bigEndian`
flag entirely, converting the request exactly as its little-endian
counterpart. -/
theorem C8_encoding_rules :
    (∀ (w : WaveFormatEx) (af : AudioFormat),
      WAVEFORMATEX_to_AudioFormat w = Except.ok af → af.bigEndian = false)
    ∧ (∀ w : WaveFormatEx, w.wFormatTag = WAVE_FORMAT_PCM →
        WAVEFORMATEX_to_AudioFormat w
          = Except.ok ⟨w.nSamplesPerSec, w.wBitsPerSample, w.nChannels,
              (if w.wBitsPerSample = 8 then Encoding.pcmUnsigned else Encoding.pcmSigned),
              false⟩)
    ∧ (∀ w : WaveFormatEx, w.wFormatTag = WAVE_FORMAT_IEEE_FLOAT →
        WAVEFORMATEX_to_AudioFormat w
          = Except.ok ⟨w.nSamplesPerSec, w.wBitsPerSample, w.nChannels,
              Encoding.pcmFloat, false⟩)
    ∧ (∀ w : WaveFormatEx, w.wFormatTag ≠ WAVE_FORMAT_PCM →
        w.wFormatTag ≠ WAVE_FORMAT_IEEE_FLOAT → w.wFormatTag ≠ WAVE_FORMAT_EXTENSIBLE →
        WAVEFORMATEX_to_AudioFormat w = Except.error ExnKind.unsupportedAudioFormat)
    ∧ (∀ w : WaveFormatEx, w.wFormatTag = WAVE_FORMAT_EXTENSIBLE →
        w.subFormatData1 ≠ 1 → w.subFormatData1 ≠ 3 →
        WAVEFORMATEX_to_AudioFormat w = Except.error ExnKind.unsupportedAudioEncoding)
    ∧ (∀ f : AudioFormat,
        AudioFormat_to_WAVEFORMATEX f
          = AudioFormat_to_WAVEFORMATEX ⟨f.sampleRate, f.bits, f.channels, f.encoding, false⟩)
    ∧ (∀ (f : AudioFormat) (w : WaveFormatEx),
        AudioFormat_to_WAVEFORMATEX f = Except.ok w →
        w.wFormatTag = WAVE_FORMAT_PCM ∨ w.wFormatTag = WAVE_FORMAT_IEEE_FLOAT) := by
  refine ⟨?_, ?_, ?_, ?_, ?_, ?_, ?_⟩
  · intro w af h
    unfold WAVEFORMATEX_to_AudioFormat at h
    split at h
    · exact Except.noConfusion h
    · split_ifs at h
      all_goals
        first
        | exact Except.noConfusion h
        | (injection h with h2
           rw [← h2])
  · intro w htag
    have hne : w.wFormatTag ≠ WAVE_FORMAT_EXTENSIBLE := by
      rw [htag]
      decide
    have hres : resolveFormatTag w = Except.ok WAVE_FORMAT_PCM := by
      unfold resolveFormatTag
      rw [if_neg hne, htag]
    simp only [WAVEFORMATEX_to_AudioFormat, hres]
    split_ifs <;> simp_all [WAVE_FORMAT_PCM, WAVE_FORMAT_IEEE_FLOAT]
  · intro w htag
    have hne : w.wFormatTag ≠ WAVE_FORMAT_EXTENSIBLE := by
      rw [htag]
      decide
    have hres : resolveFormatTag w = Except.ok WAVE_FORMAT_IEEE_FLOAT := by
      unfold resolveFormatTag
      rw [if_neg hne, htag]
    simp only [WAVEFORMATEX_to_AudioFormat, hres]
    rw [if_pos trivial]
  · intro w h1 h2 h3
    have hres : resolveFormatTag w = Except.ok w.wFormatTag := by
      unfold resolveFormatTag
      rw [if_neg h3]
    simp only [WAVEFORMATEX_to_AudioFormat, hres]
    rw [if_neg h2, if_neg h1]
  · intro w htag h1 h3
    have hres : resolveFormatTag w = Except.error ExnKind.unsupportedAudioEncoding := by
      unfold resolveFormatTag
      rw [if_pos htag, if_neg h1, if_neg h3]
    simp only [WAVEFORMATEX_to_AudioFormat, hres]
  · intro f
    rfl
  · intro f w h
    unfold AudioFormat_to_WAVEFORMATEX at h
    split_ifs at h
    all_goals
      first
      | exact Except.noConfusion h
      | (injection h with h2
         rw [← h2]
         first
         | exact Or.inl rfl
         | exact Or.inr rfl)

/-- Witness for the amended C8: the PCM rule at a concrete 16-bit format,
whose conversion is signed little-endian. -/
theorem C8_encoding_rules_witness :
    WAVEFORMATEX_to_AudioFormat ⟨1, 0, 2, 44100, 16, 4, 176400⟩
      = Except.ok ⟨44100, 16, 2,
          (if (16 : Nat) = 8 then Encoding.pcmUnsigned else Encoding.pcmSigned), false⟩ :=
  C8_encoding_rules.2.1 ⟨1, 0, 2, 44100, 16, 4, 176400⟩ rfl

/-- Every event manipulation leaves the stop-request event's manual-reset
attribute unchanged. -/
theorem applyEventAction_manualReset (a : EventAction) (p : EventPair) :
    (applyEventAction a p).stopRequest.manualReset = p.stopRequest.manualReset := by
  cases a
  · simp only [applyEventAction, waitForMultipleObjects2]
    split_ifs <;> rfl
  · rfl
  · rfl

/-- A signaled manual-reset stop-request event stays signaled across any
single event manipulation. -/
theorem applyEventAction_stop_stays (a : EventAction) (p : EventPair)
    (hm : p.stopRequest.manualReset = true)
    (hs : p.stopRequest.signaled = true) :
    (applyEventAction a p).stopRequest.signaled = true := by
  cases a
  · simp only [applyEventAction, waitForMultipleObjects2]
    split_ifs with h1 h2 <;> simp_all [setEvent]
  · exact rfl
  · exact hs

/-- A successful `sharedOpen` forwards the session whose resources
`sharedOpenRest` assembled, for some settled format. -/
theorem sharedOpen_ok_exists_rest (cb : Bool) (env : OpenEnv) (req : AudioFormat)
    (s : OpenedSession) (h : sharedOpen cb env req = Except.ok s) :
    ∃ fmt, sharedOpenRest cb env fmt = Except.ok s := by
  unfold sharedOpen at h
  split at h
  · exact Except.noConfusion h
  · split at h
    · exact Except.noConfusion h
    · split at h
      · exact Except.noConfusion h
      · split at h
        · exact Except.noConfusion h
        · exact Except.noConfusion h
        · exact ⟨_, h⟩
        · exact ⟨_, h⟩

/-- The session `sharedOpenRest` builds carries the two freshly created
events: both manual-reset, both initially non-signaled. -/
theorem sharedOpenRest_events (cb : Bool) (env : OpenEnv) (fmt : WaveFormatEx)
    (s : OpenedSession) (h : sharedOpenRest cb env fmt = Except.ok s) :
    s.events = ⟨createManualResetEvent, createManualResetEvent⟩ := by
  unfold sharedOpenRest at h
  split_ifs at h
  split at h
  · exact Except.noConfusion h
  · injection h with h2
    rw [← h2]

/-- Claim C9: the stop-requested signal is level-triggered.  Both session
events are created manual-reset and initially non-signaled; no modelled
manipulation (two-signal wait, `SetEvent` from `nStop` or the
device-change callback, the buffer-ready callback) ever takes the
stop-request event from signaled back to non-signaled — there is no
`ResetEvent` anywhere — and a two-signal wait entered while the
stop-request event is signaled returns immediately rather than blocking,
yielding the stop index whenever the buffer-ready event is clear. -/
theorem C9_stop_signal_level_triggered :
    (∀ (acts : List EventAction) (p : EventPair),
      p.stopRequest.manualReset = true → p.stopRequest.signaled = true →
      (applyEventActions acts p).stopRequest.signaled = true)
    ∧ (∀ p : EventPair, p.stopRequest.signaled = true →
        (waitForMultipleObjects2 p).1 ≠ WaitRes.noSignal)
    ∧ (∀ p : EventPair, p.bufferReady.signaled = false → p.stopRequest.signaled = true →
        (waitForMultipleObjects2 p).1 = WaitRes.object1)
    ∧ (∀ (cb : Bool) (env : OpenEnv) (req : AudioFormat) (s : OpenedSession),
        sharedOpen cb env req = Except.ok s →
        s.events.stopRequest.manualReset = true
        ∧ s.events.bufferReady.manualReset = true
        ∧ s.events.stopRequest.signaled = false) := by
  refine ⟨?_, ?_, ?_, ?_⟩
  · intro acts
    induction acts with
    | nil => intro p _ hs; exact hs
    | cons a rest ih =>
      intro p hm hs
      exact ih (applyEventAction a p)
        (by rw [applyEventAction_manualReset]; exact hm)
        (applyEventAction_stop_stays a p hm hs)
  · intro p hs
    unfold waitForMultipleObjects2
    split_ifs with h1 h2 <;> simp_all
  · intro p hb hs
    unfold waitForMultipleObjects2
    rw [if_neg (by simp [hb]), if_pos hs]
  · intro cb env req s h
    rcases sharedOpen_ok_exists_rest cb env req s h with ⟨fmt, hrest⟩
    rw [sharedOpenRest_events cb env fmt s hrest]
    exact ⟨rfl, rfl, rfl⟩

/-- Witness for C9: a history of waits and a buffer-ready signal after the
stop signal was set leaves the stop event signaled, and a wait entered
with the stop event signaled and the buffer-ready event clear returns the
stop index. -/
theorem C9_stop_signal_level_triggered_witness :
    (applyEventActions [EventAction.wait, EventAction.setReady, EventAction.wait]
        ⟨⟨true, false⟩, ⟨true, true⟩⟩).stopRequest.signaled = true
    ∧ (waitForMultipleObjects2 ⟨⟨true, false⟩, ⟨true, true⟩⟩).1 = WaitRes.object1 :=
  ⟨C9_stop_signal_level_triggered.1 [EventAction.wait, EventAction.setReady, EventAction.wait]
      ⟨⟨true, false⟩, ⟨true, true⟩⟩ rfl rfl,
    C9_stop_signal_level_triggered.2.2.1 ⟨⟨true, false⟩, ⟨true, true⟩⟩ rfl rfl⟩

/-- Claim C10 counterexample: `nDrain` on the shared input raises
`unsupportedOperationException` even when the stored context handle is
zero — it does not return without effect. -/
theorem C10_counterexample_input_drain_throws :
    nDrainInput none = some ExnKind.unsupportedOperation
    ∧ some ExnKind.unsupportedOperation ≠ (none : Option ExnKind) :=
  ⟨rfl, by decide⟩

/-- Claim C10 (amended): on a session whose stored context handle is zero,
write, read, available, getBufferSize, getFramePosition and
getMicrosecondLatency return `-1` without raising, getCurrentPort returns
null without raising, start, stop and the output drain return without
effect and without raising — but the input drain is unconditionally
unsupported and raises `unsupportedOperation` whether or not the session
is open. -/
theorem C10_not_open_sentinels :
    (∀ (arrayOk : Bool) (offset length : Nat) (steps : List WriteStep),
      nWrite none arrayOk offset length steps = some ⟨-1, none, 0, false⟩)
    ∧ (∀ (arrayOk : Bool) (length : Nat) (steps : List ReadStep),
      nRead none arrayOk length steps = some ⟨-1, none, 0, false⟩)
    ∧ (∀ (hr : HRes) (padding : Nat), nAvailableOutput none hr padding = ⟨-1, none⟩)
    ∧ (∀ gb : CaptureBuffer, nAvailableInput none gb = ⟨-1, none⟩)
    ∧ nGetBufferSize none = ⟨-1, none⟩
    ∧ (∀ (hr : HRes) (position : Nat), nGetFramePosition none hr position = ⟨-1, none⟩)
    ∧ (∀ (hr : HRes) (latency fallbackMicros : Int),
        nGetMicrosecondLatency none hr latency fallbackMicros = ⟨-1, none⟩)
    ∧ nGetCurrentAudioPort none = (none, none)
    ∧ (∀ hr : HRes, nStart false hr = (false, none))
    ∧ (∀ env : StopEnv, nStopOutput false env = ⟨false, false, false, false, none⟩)
    ∧ (∀ steps : List DrainStep, nDrainOutput false steps = some none)
    ∧ (∀ c : Option ReadCtx, nDrainInput c = some ExnKind.unsupportedOperation) :=
  ⟨fun _ _ _ _ => rfl, fun _ _ _ => rfl, fun _ _ => rfl, fun _ => rfl, rfl,
    fun _ _ => rfl, fun _ _ _ => rfl, rfl, fun _ => rfl, fun _ => rfl,
    fun _ => rfl, fun _ => rfl⟩

end ThekoSound
